import Mathlib

/-!
Verification development for a near-Earth-object (NEO) close-approach data
model and its two serializers (CSV and JSON).

Shallow embedding notes.
* Python floats appear in this program only as: values converted once via
  `float(...)`, compared for equality with themselves (the NaN test), compared
  against `0.0`, and printed.  No arithmetic is ever performed on them, so we
  model a Python float as either the NaN sentinel or an exact rational value;
  on the decimal literals this program handles, Python's shortest round-trip
  `repr` prints exactly the decimal expansion of that rational.
* Python exceptions are modelled with `Except String`.
* The `helpers` module (`cd_to_datetime`, `datetime_to_str`) is an external
  collaborator that is not part of the two given source files; it is modelled
  from the spec (see the doc comments below).
* The writers perform no assignment to any attribute of the object graph; the
  embedding makes this visible by having each writer return the object graph
  it ran on alongside the text it wrote.
-/

/-- A Python float as used by this program: either the NaN sentinel
(`float("nan")`, unequal to itself) or an exact rational value. -/
inductive PyFloat where
  | nan : PyFloat
  | val (q : ℚ) : PyFloat
deriving DecidableEq, Repr

/-- Python `==` on floats: NaN is unequal to everything, itself included. -/
def pyEq : PyFloat → PyFloat → Bool
  | PyFloat.val x, PyFloat.val y => decide (x = y)
  | _, _ => false

/-- Python `>` on floats: any comparison involving NaN is `False`. -/
def pyGt : PyFloat → PyFloat → Bool
  | PyFloat.val x, PyFloat.val y => decide (y < x)
  | _, _ => false

/-- A Python object supplied for a numeric field: already a float, a string
(which `float(...)` may or may not parse), or some other object on which
`float(...)` raises `TypeError`. -/
inductive PyObj where
  | ofFloat (f : PyFloat) : PyObj
  | ofStr (s : String) : PyObj
  | other : PyObj
deriving DecidableEq, Repr

/-- Numeric value of a (possibly empty) run of decimal digits; `none` when a
non-digit occurs. -/
def digitsValOpt (cs : List Char) : Option Nat :=
  cs.foldlM (fun acc c => if c.isDigit then some (acc * 10 + (c.toNat - 48)) else none) 0

/-- Parse a decimal string the way Python `float(...)` accepts this program's
inputs: optional sign, digits with at most one point, at least one digit;
`"nan"` yields the sentinel.  (Exponent forms are out of this program's
scope.) -/
def parseFloat (s : String) : Option PyFloat :=
  if s = "nan" then some PyFloat.nan else
  let sign : Bool := s.data.head? = some (Char.ofNat 45)
  let body := if sign then s.data.drop 1 else s.data
  match body.splitOn (Char.ofNat 46) with
  | [ip] => do
      let n ← if ip.isEmpty then none else digitsValOpt ip
      some (PyFloat.val (if sign then -(n : ℚ) else (n : ℚ)))
  | [ip, fp] => do
      if ip.isEmpty ∧ fp.isEmpty then none else
      let i ← digitsValOpt ip
      let f ← digitsValOpt fp
      let q : ℚ := (i : ℚ) + (f : ℚ) / ((10 : ℚ) ^ fp.length)
      some (PyFloat.val (if sign then -q else q))
  | _ => none

/-- Python `float(x)`: identity on floats, parse for strings, `TypeError`
otherwise. -/
def pyFloatOf : PyObj → Except String PyFloat
  | PyObj.ofFloat f => Except.ok f
  | PyObj.ofStr s =>
      match parseFloat s with
      | some f => Except.ok f
      | none => Except.error "ValueError"
  | PyObj.other => Except.error "TypeError"

/-- Digits of the fractional part `rem/den`, most significant first, stopping
when the remainder vanishes or fuel runs out. -/
def fracDigitsStr (den : Nat) : Nat → Nat → String
  | 0, _ => ""
  | _ + 1, 0 => ""
  | fuel + 1, rem =>
      toString ((rem * 10) / den) ++ fracDigitsStr den fuel ((rem * 10) % den)

/-- Decimal rendering of a nonnegative rational, Python-float style: integer
part, point, fractional digits (`".0"` when the value is integral). -/
def qReprNonneg (q : ℚ) : String :=
  let n := q.num.toNat
  let d := q.den
  if n % d = 0 then toString (n / d) ++ ".0"
  else toString (n / d) ++ "." ++ fracDigitsStr d 30 (n % d)

/-- Decimal rendering of a rational, Python-float style. -/
def qRepr (q : ℚ) : String :=
  if q < 0 then "-" ++ qReprNonneg (-q) else qReprNonneg q

/-- Python `str()` of a float: `"nan"` for the sentinel, decimal otherwise. -/
def pyFloatStr : PyFloat → String
  | PyFloat.nan => "nan"
  | PyFloat.val q => qRepr q

/-- Python `json.dump` rendering of a float: the non-standard token `NaN` for
the sentinel, decimal otherwise. -/
def pyFloatJson : PyFloat → String
  | PyFloat.nan => "NaN"
  | PyFloat.val q => qRepr q

/-- A naive UTC instant as produced by the date-parsing collaborator. -/
structure PyDateTime where
  year : Nat
  month : Nat
  day : Nat
  hour : Nat
  minute : Nat
  second : Nat
deriving DecidableEq, Repr

/-- Zero-pad a natural number to two digits. -/
def pad2 (n : Nat) : String :=
  if n < 10 then "0" ++ toString n else toString n

/-- Zero-pad a natural number to four digits. -/
def pad4 (n : Nat) : String :=
  if n < 10 then "000" ++ toString n
  else if n < 100 then "00" ++ toString n
  else if n < 1000 then "0" ++ toString n
  else toString n

/-- Numeric value of a two-character digit pair. -/
def twoDigits (a b : Char) : Option Nat := do
  let x ← digitsValOpt [a]
  let y ← digitsValOpt [b]
  if a.isDigit ∧ b.isDigit then some (x * 10 + y) else none

/-- Modelled from the spec: the external date-parsing collaborator
`cd_to_datetime` of the absent `helpers` module.  It accepts exactly the
`"YYYY-MM-DD HH:MM"` calendar shape, returns a UTC-naive instant with a zero
seconds component, and fails on malformed input. -/
def cd_to_datetime (s : String) : Except String PyDateTime :=
  match s.data with
  | [y1, y2, y3, y4, s1, m1, m2, s2, d1, d2, s3, h1, h2, s4, n1, n2] =>
      let parsed : Option PyDateTime := do
        if s1 = Char.ofNat 45 ∧ s2 = Char.ofNat 45 ∧ s3 = Char.ofNat 32 ∧
            s4 = Char.ofNat 58 then
          let yA ← twoDigits y1 y2
          let yB ← twoDigits y3 y4
          let mo ← twoDigits m1 m2
          let dy ← twoDigits d1 d2
          let hr ← twoDigits h1 h2
          let mi ← twoDigits n1 n2
          if 1 ≤ mo ∧ mo ≤ 12 ∧ 1 ≤ dy ∧ dy ≤ 31 ∧ hr ≤ 23 ∧ mi ≤ 59 then
            some ⟨yA * 100 + yB, mo, dy, hr, mi, 0⟩
          else none
        else none
      match parsed with
      | some t => Except.ok t
      | none => Except.error "ValueError"
  | _ => Except.error "ValueError"

/-- Modelled from the spec: the external formatter `datetime_to_str` of the
absent `helpers` module renders the instant without seconds in the canonical
`"YYYY-MM-DD HH:MM"` shape. -/
def datetime_to_str (t : PyDateTime) : String :=
  pad4 t.year ++ "-" ++ pad2 t.month ++ "-" ++ pad2 t.day ++ " " ++
    pad2 t.hour ++ ":" ++ pad2 t.minute

/-- Modelled from the spec: serializing the raw internal instant directly
(Python `str(datetime)`) yields the display form with the seconds component
appended, e.g. `"1900-01-01 00:27:00"`. -/
def pyDatetimeStr (t : PyDateTime) : String :=
  datetime_to_str t ++ (":" ++ pad2 t.second)

/-- A near-Earth object, as constructed by `NearEarthObject.__init__`
(src/models.py): unique string designation, optional IAU name, diameter with
the NaN sentinel for unknown, hazardous flag, and the collection of linked
approaches (held as object identities, since the Python back-link is cyclic). -/
structure NearEarthObject where
  designation : String
  name : Option String
  diameter : PyFloat
  hazardous : Bool
  approaches : List Nat
deriving DecidableEq, Repr

/-- A close approach, as constructed by `CloseApproach.__init__`
(src/models.py): the approach-local designation key `_designation`, the parsed
time, distance and velocity with the `0.0` default, and the NEO back-reference
that starts as `None` and is set once by the external linking step. -/
structure CloseApproach where
  _designation : String
  time : PyDateTime
  distance : PyFloat
  velocity : PyFloat
  neo : Option NearEarthObject
deriving DecidableEq, Repr

/-- The recognized keyword arguments of `NearEarthObject.__init__`; a missing
key is `none`. -/
structure NeoInfo where
  name : Option String
  diameter : Option PyObj
  hazardous : Option Bool
deriving DecidableEq, Repr

/-- The recognized keyword arguments of `CloseApproach.__init__`. -/
structure CaInfo where
  distance : Option PyObj
  velocity : Option PyObj
deriving DecidableEq, Repr

/-- `NearEarthObject.__init__` (src/models.py lines 34-54): asserts the
designation is a string, takes `name` as given or `None`, coerces `diameter`
to float or the NaN sentinel, takes `hazardous` or `False`, and starts with an
empty approaches collection. -/
def nearEarthObjectInit (designation : PyObj) (info : NeoInfo) :
    Except String NearEarthObject :=
  match designation with
  | PyObj.ofStr s =>
      match (match info.diameter with
             | some v => pyFloatOf v
             | none => Except.ok PyFloat.nan) with
      | Except.error e => Except.error e
      | Except.ok diameter =>
          Except.ok
            { designation := s
              name := info.name
              diameter := diameter
              hazardous := info.hazardous.getD false
              approaches := [] }
  | _ => Except.error "AssertionError"

/-- `CloseApproach.__init__` (src/models.py lines 101-116): stores the
designation key, parses the time via `cd_to_datetime` (construction fails on a
malformed string), coerces `distance` and `velocity` to float with default
`0.0`, and starts with `neo = None`. -/
def closeApproachInit (designation : String) (time : String) (info : CaInfo) :
    Except String CloseApproach :=
  match cd_to_datetime time with
  | Except.error e => Except.error e
  | Except.ok t =>
      match (match info.distance with
             | some v => pyFloatOf v
             | none => Except.ok (PyFloat.val 0)) with
      | Except.error e => Except.error e
      | Except.ok distance =>
          match (match info.velocity with
                 | some v => pyFloatOf v
                 | none => Except.ok (PyFloat.val 0)) with
          | Except.error e => Except.error e
          | Except.ok velocity =>
              Except.ok
                { _designation := designation
                  time := t
                  distance := distance
                  velocity := velocity
                  neo := none }

/-- `NearEarthObject.__str__` (src/models.py lines 65-77), translated
statement by statement. -/
def neoStr (neo : NearEarthObject) : String :=
  let text := "A NearEarthObject with designation " ++ neo.designation ++ "."
  let text :=
    match neo.name with
    | some n => text ++ " It\x27s name is " ++ n
    | none => text
  let text :=
    if pyEq neo.diameter neo.diameter then
      text ++ " It has a diameter of " ++ pyFloatStr neo.diameter ++ "m."
    else text
  if neo.hazardous then text ++ " It is endangering us all!"
  else text ++ " It is harmless."

/-- `CloseApproach.__str__` (src/models.py lines 133-142), translated
statement by statement; `time_str` is `datetime_to_str self.time`. -/
def caStr (ca : CloseApproach) : String :=
  let text := "A CloseApproach of " ++ ca._designation ++ " that happened on "
    ++ datetime_to_str ca.time ++ "."
  let text :=
    if pyGt ca.velocity (PyFloat.val 0) then
      text ++ " The velocity was " ++ pyFloatStr ca.velocity
    else text
  if pyGt ca.distance (PyFloat.val 0) then
    text ++ " The distance was " ++ pyFloatStr ca.distance
  else text

/-- A Python value placed in a CSV row tuple before `csv.writer` stringifies
it: the rows built by `write_to_csv` mix datetimes, floats, strings and
booleans. -/
inductive PyVal where
  | str (s : String) : PyVal
  | float (f : PyFloat) : PyVal
  | datetime (t : PyDateTime) : PyVal
  | bool (b : Bool) : PyVal
deriving DecidableEq, Repr

/-- `csv.writer` stringification of one cell (minimal quoting; none of this
program's cells contains a comma or a quote). -/
def csvCellStr : PyVal → String
  | PyVal.str s => s
  | PyVal.float f => pyFloatStr f
  | PyVal.datetime t => pyDatetimeStr t
  | PyVal.bool b => if b then "True" else "False"

/-- The header tuple of `write_to_csv` (src/write.py lines 28-36). -/
def fieldnames : List String :=
  ["datetime_utc", "distance_au", "velocity_km_s", "designation", "name",
   "diameter_km", "potentially_hazardous"]

/-- The loop body of `write_to_csv` (src/write.py lines 41-53): reads
`o.neo.name` (an `AttributeError` when `o.neo` is `None`), the name/diameter
fallbacks, and builds the row tuple in source order. -/
def csvRow (o : CloseApproach) : Except String (List PyVal) :=
  match o.neo with
  | none => Except.error "AttributeError"
  | some neo =>
      let name := match neo.name with | some n => n | none => ""
      let dia : PyVal :=
        if pyEq neo.diameter neo.diameter then PyVal.float neo.diameter
        else PyVal.str ""
      Except.ok
        [PyVal.datetime o.time, PyVal.float o.distance,
         PyVal.float o.velocity, PyVal.str o._designation, PyVal.str name,
         dia, PyVal.bool neo.hazardous]

/-- Run a fallible step over each element in order, failing on the first
error (the Python loop semantics). -/
def mapExcept (f : α → Except String β) : List α → Except String (List β)
  | [] => Except.ok []
  | x :: xs =>
      match f x with
      | Except.error e => Except.error e
      | Except.ok y =>
          match mapExcept f xs with
          | Except.error e => Except.error e
          | Except.ok ys => Except.ok (y :: ys)

/-- `write_to_csv` (src/write.py lines 18-53): one header row, then one row
per approach.  The loop body contains no assignment to any attribute, so the
object graph is returned unchanged alongside the rows written. -/
def write_to_csv (results : List CloseApproach) :
    Except String (List CloseApproach × List (List PyVal)) :=
  match mapExcept csvRow results with
  | Except.error e => Except.error e
  | Except.ok rows => Except.ok (results, fieldnames.map PyVal.str :: rows)

/-- Rendering of one CSV line: cells comma-joined (the header names and this
program's cells need no quoting). -/
def csvLine (row : List PyVal) : String :=
  String.intercalate "," (row.map csvCellStr)

/-- A JSON value as built by `write_to_json`. -/
inductive JVal where
  | jstr (s : String) : JVal
  | jnum (f : PyFloat) : JVal
  | jbool (b : Bool) : JVal
  | jobj (fields : List (String × JVal)) : JVal
  | jarr (items : List JVal) : JVal
deriving Repr

/-- Escape of one character inside a JSON string (this program's strings need
only quote and backslash escapes). -/
def jsonEscapeChar (c : Char) : String :=
  if c = Char.ofNat 92 then "\\\\"
  else if c = Char.ofNat 34 then "\\\"" else String.singleton c

/-- Escape of a JSON string body. -/
def jsonEscape (s : String) : String :=
  String.join (s.data.map jsonEscapeChar)

mutual
/-- `json.dump` rendering with the default separators `", "` and `": "`. -/
def jsonRender : JVal → String
  | JVal.jstr s => "\"" ++ jsonEscape s ++ "\""
  | JVal.jnum f => pyFloatJson f
  | JVal.jbool b => if b then "true" else "false"
  | JVal.jobj fields =>
      "\x7b" ++ String.intercalate ", " (jsonRenderFields fields) ++ "\x7d"
  | JVal.jarr items =>
      "[" ++ String.intercalate ", " (jsonRenderItems items) ++ "]"

/-- Rendered `"key": value` pairs of an object, in insertion order. -/
def jsonRenderFields : List (String × JVal) → List String
  | [] => []
  | (k, v) :: rest =>
      ("\"" ++ jsonEscape k ++ "\": " ++ jsonRender v) :: jsonRenderFields rest

/-- Rendered items of an array, in order. -/
def jsonRenderItems : List JVal → List String
  | [] => []
  | v :: rest => jsonRender v :: jsonRenderItems rest
end

/-- The loop body of `write_to_json` (src/write.py lines 73-86): builds the
nested `neo` dictionary and the approach dictionary with keys in insertion
order; reads of `o.neo.designation` fail when `o.neo` is `None`. -/
def approachObjDict (o : CloseApproach) : Except String JVal :=
  match o.neo with
  | none => Except.error "AttributeError"
  | some neo =>
      let neoDict : JVal := JVal.jobj
        [("designation", JVal.jstr neo.designation),
         ("name", JVal.jstr (match neo.name with | some n => n | none => "")),
         ("diameter_km", JVal.jnum neo.diameter),
         ("potentially_hazardous", JVal.jbool (if neo.hazardous then true else false))]
      Except.ok (JVal.jobj
        [("datetime_utc", JVal.jstr (datetime_to_str o.time)),
         ("distance_au", JVal.jnum o.distance),
         ("velocity_km_s", JVal.jnum o.velocity),
         ("neo", neoDict)])

/-- `write_to_json` (src/write.py lines 56-87): the empty collection dumps the
literal empty array, otherwise the list of approach dictionaries is built and
dumped in one pass.  No attribute of the object graph is assigned, so the
graph is returned unchanged alongside the text written. -/
def write_to_json (results : List CloseApproach) :
    Except String (List CloseApproach × String) :=
  if results.length = 0 then Except.ok (results, jsonRender (JVal.jarr []))
  else
    match mapExcept approachObjDict results with
    | Except.error e => Except.error e
    | Except.ok objs => Except.ok (results, jsonRender (JVal.jarr objs))

/-- A sample NEO with no name, unknown diameter and the hazardous flag set;
its designation deliberately differs from the sample approach's captured key. -/
def neoSample : NearEarthObject :=
  { designation := "2020 XY", name := none, diameter := PyFloat.nan,
    hazardous := true, approaches := [] }

/-- A sample linked close approach whose captured designation key differs from
the designation of the NEO it is linked to. -/
def caSample : CloseApproach :=
  { _designation := "433 K", time := ⟨1900, 1, 1, 0, 27, 0⟩,
    distance := PyFloat.val (mkRat 865 10000), velocity := PyFloat.val (mkRat 1675 100),
    neo := some neoSample }

instance {ε α : Type} [DecidableEq ε] [DecidableEq α] : DecidableEq (Except ε α) := fun a b =>
  match a, b with
  | Except.error x, Except.error y =>
      if h : x = y then isTrue (by rw [h]) else isFalse fun hc => h (by injection hc)
  | Except.error _, Except.ok _ => isFalse fun hc => Except.noConfusion hc
  | Except.ok _, Except.error _ => isFalse fun hc => Except.noConfusion hc
  | Except.ok x, Except.ok y =>
      if h : x = y then isTrue (by rw [h]) else isFalse fun hc => h (by injection hc)

/-- When every element maps successfully, `mapExcept` succeeds and yields one
result per element. -/
theorem mapExcept_ok {α β : Type} (f : α → Except String β) :
    ∀ l : List α, (∀ a ∈ l, ∃ b, f a = Except.ok b) →
      ∃ rs, mapExcept f l = Except.ok rs ∧ rs.length = l.length := by
  intro l
  induction l with
  | nil => intro _; exact ⟨[], rfl, rfl⟩
  | cons x xs ih =>
      intro h
      obtain ⟨b, hb⟩ := h x (List.mem_cons_self x xs)
      obtain ⟨rs, hrs, hlen⟩ := ih fun a ha => h a (List.mem_cons_of_mem x ha)
      refine ⟨b :: rs, ?_, by simp [hlen]⟩
      simp [mapExcept, hb, hrs]

/-- The raw serialization of an instant is never the seconds-stripped display
form: it is three or more characters longer. -/
theorem pyDatetimeStr_ne_display (t : PyDateTime) :
    pyDatetimeStr t ≠ datetime_to_str t := by
  unfold pyDatetimeStr
  intro h
  have h2 := congrArg String.length h
  rw [String.length_append, String.length_append] at h2
  have h3 : (":" : String).length = 1 := rfl
  omega

/-- Claim C1: end-to-end — a NEO constructed with designation `"433"`, name
`"Eros"`, diameter `16.84`, not hazardous, linked to one close approach
constructed with designation `"433"`, time `"1900-01-01 00:27"`, distance
`0.0865`, velocity `16.75`; `write_to_json` on the one-element list writes
exactly the claimed JSON array. -/
theorem write_to_json_end_to_end_433_eros :
    ∃ neo ca,
      nearEarthObjectInit (PyObj.ofStr "433")
          ⟨some "Eros", some (PyObj.ofFloat (PyFloat.val (mkRat 1684 100))), some false⟩
        = Except.ok neo ∧
      closeApproachInit "433" "1900-01-01 00:27"
          ⟨some (PyObj.ofFloat (PyFloat.val (mkRat 865 10000))),
           some (PyObj.ofFloat (PyFloat.val (mkRat 1675 100)))⟩
        = Except.ok ca ∧
      (write_to_json [{ ca with neo := some neo }]).map Prod.snd
        = Except.ok "[\x7b\"datetime_utc\": \"1900-01-01 00:27\", \"distance_au\": 0.0865, \"velocity_km_s\": 16.75, \"neo\": \x7b\"designation\": \"433\", \"name\": \"Eros\", \"diameter_km\": 16.84, \"potentially_hazardous\": false\x7d\x7d]" := by
  set_option maxRecDepth 100000 in
  exact ⟨_, _, rfl, rfl, by decide⟩

/-- Claim C5: `write_to_json` applied to an empty collection writes exactly the
literal empty JSON array `[]` (and leaves the empty object graph as is). -/
theorem write_to_json_empty :
    write_to_json ([] : List CloseApproach) = Except.ok ([], "[]") := rfl

/-- Evaluation of the CSV loop body on an approach whose NEO link is set. -/
theorem csvRow_some (ca : CloseApproach) (n : NearEarthObject)
    (h : ca.neo = some n) :
    csvRow ca = Except.ok
      [PyVal.datetime ca.time, PyVal.float ca.distance, PyVal.float ca.velocity,
       PyVal.str ca._designation,
       PyVal.str (match n.name with | some s => s | none => ""),
       (if pyEq n.diameter n.diameter then PyVal.float n.diameter else PyVal.str ""),
       PyVal.bool n.hazardous] := by
  unfold csvRow
  rw [h]

/-- Evaluation of the JSON loop body on an approach whose NEO link is set. -/
theorem approachObjDict_some (ca : CloseApproach) (n : NearEarthObject)
    (h : ca.neo = some n) :
    approachObjDict ca = Except.ok (JVal.jobj
      [("datetime_utc", JVal.jstr (datetime_to_str ca.time)),
       ("distance_au", JVal.jnum ca.distance),
       ("velocity_km_s", JVal.jnum ca.velocity),
       ("neo", JVal.jobj
         [("designation", JVal.jstr n.designation),
          ("name", JVal.jstr (match n.name with | some s => s | none => "")),
          ("diameter_km", JVal.jnum n.diameter),
          ("potentially_hazardous", JVal.jbool (if n.hazardous then true else false))])]) := by
  unfold approachObjDict
  rw [h]

/-- Claim C2: for every input sequence of linked approaches, the first line
`write_to_csv` writes is exactly the header of the 7 field names comma-joined
in the documented order, followed by exactly one data row per approach. -/
theorem write_to_csv_header_then_rows (results : List CloseApproach)
    (h : ∀ a ∈ results, a.neo.isSome) :
    ∃ rows, write_to_csv results
        = Except.ok (results, fieldnames.map PyVal.str :: rows)
      ∧ rows.length = results.length
      ∧ csvLine (fieldnames.map PyVal.str)
        = "datetime_utc,distance_au,velocity_km_s,designation,name,diameter_km,potentially_hazardous" := by
  have hall : ∀ a ∈ results, ∃ b, csvRow a = Except.ok b := by
    intro a ha
    have hs := h a ha
    match hne : a.neo with
    | some n => exact ⟨_, csvRow_some a n hne⟩
    | none => simp [hne] at hs
  obtain ⟨rows, hrows, hlen⟩ := mapExcept_ok csvRow results hall
  exact ⟨rows, by simp [write_to_csv, hrows], hlen, rfl⟩

/-- Witness for C2 at a concrete one-element linked input. -/
theorem write_to_csv_header_then_rows_witness :
    ∃ rows, write_to_csv [caSample]
        = Except.ok ([caSample], fieldnames.map PyVal.str :: rows)
      ∧ rows.length = [caSample].length
      ∧ csvLine (fieldnames.map PyVal.str)
        = "datetime_utc,distance_au,velocity_km_s,designation,name,diameter_km,potentially_hazardous" :=
  write_to_csv_header_then_rows [caSample] (by decide)

/-- Claim C3: the CSV data row maps `designation` to the approach's own
captured key (independent of the linked NEO's designation attribute), `name`
to the empty string when the NEO name is absent, `diameter_km` to the empty
string exactly when the diameter is the NaN sentinel and to the numeric value
otherwise, and `distance_au`/`velocity_km_s` to the stored values. -/
theorem csv_row_field_mapping (ca : CloseApproach) (n : NearEarthObject)
    (h : ca.neo = some n) :
    ∃ row, csvRow ca = Except.ok row
      ∧ row[3]? = some (PyVal.str ca._designation)
      ∧ (n.name = none → row[4]? = some (PyVal.str ""))
      ∧ (n.diameter = PyFloat.nan → row[5]? = some (PyVal.str ""))
      ∧ (∀ q, n.diameter = PyFloat.val q →
          row[5]? = some (PyVal.float (PyFloat.val q)))
      ∧ row[1]? = some (PyVal.float ca.distance)
      ∧ row[2]? = some (PyVal.float ca.velocity) := by
  refine ⟨_, csvRow_some ca n h, rfl, ?_, ?_, ?_, rfl, rfl⟩
  · intro hn; simp [hn]
  · intro hd; simp [hd, pyEq]
  · intro q hq; simp [hq, pyEq]

/-- Witness for C3 at a concrete approach whose captured key `"433 K"` differs
from the linked NEO's designation `"2020 XY"`, with the name absent and the
diameter unknown. -/
theorem csv_row_field_mapping_witness :
    ∃ row, csvRow caSample = Except.ok row
      ∧ row[3]? = some (PyVal.str "433 K")
      ∧ (neoSample.name = none → row[4]? = some (PyVal.str ""))
      ∧ (neoSample.diameter = PyFloat.nan → row[5]? = some (PyVal.str ""))
      ∧ (∀ q, neoSample.diameter = PyFloat.val q →
          row[5]? = some (PyVal.float (PyFloat.val q)))
      ∧ row[1]? = some (PyVal.float caSample.distance)
      ∧ row[2]? = some (PyVal.float caSample.velocity) :=
  csv_row_field_mapping caSample neoSample rfl

/-- Claim C4: for every linked approach the CSV writer places the raw internal
instant in the `datetime_utc` cell (whose serialization carries the seconds
component) while the JSON writer emits the seconds-stripped display string for
the same logical field, and the two representations are never equal. -/
theorem writers_time_representation_asymmetry (ca : CloseApproach)
    (n : NearEarthObject) (h : ca.neo = some n) :
    (∃ row, csvRow ca = Except.ok row
        ∧ row[0]? = some (PyVal.datetime ca.time)
        ∧ csvCellStr (PyVal.datetime ca.time) = pyDatetimeStr ca.time)
    ∧ (∃ fields, approachObjDict ca = Except.ok (JVal.jobj fields)
        ∧ fields[0]? = some ("datetime_utc", JVal.jstr (datetime_to_str ca.time)))
    ∧ pyDatetimeStr ca.time ≠ datetime_to_str ca.time :=
  ⟨⟨_, csvRow_some ca n h, rfl, rfl⟩,
   ⟨_, approachObjDict_some ca n h, rfl⟩,
   pyDatetimeStr_ne_display ca.time⟩

/-- Witness for C4 at a concrete linked approach. -/
theorem writers_time_representation_asymmetry_witness :
    (∃ row, csvRow caSample = Except.ok row
        ∧ row[0]? = some (PyVal.datetime caSample.time)
        ∧ csvCellStr (PyVal.datetime caSample.time) = pyDatetimeStr caSample.time)
    ∧ (∃ fields, approachObjDict caSample = Except.ok (JVal.jobj fields)
        ∧ fields[0]? = some ("datetime_utc", JVal.jstr (datetime_to_str caSample.time)))
    ∧ pyDatetimeStr caSample.time ≠ datetime_to_str caSample.time :=
  writers_time_representation_asymmetry caSample neoSample rfl

/-- Folding of the sentence boundary before a name clause. -/
theorem strMergeName (s : String) :
    ("." : String) ++ (" It\x27s name is " ++ s) = ". It\x27s name is " ++ s := by
  rw [← String.append_assoc]; rfl

/-- Folding of the sentence boundary before a diameter clause. -/
theorem strMergeDiameter (s : String) :
    ("." : String) ++ (" It has a diameter of " ++ s)
      = ". It has a diameter of " ++ s := by
  rw [← String.append_assoc]; rfl

/-- Folding of the sentence boundary before a velocity clause. -/
theorem strMergeVelocity (s : String) :
    ("." : String) ++ (" The velocity was " ++ s)
      = ". The velocity was " ++ s := by
  rw [← String.append_assoc]; rfl

/-- Folding of the sentence boundary before a distance clause. -/
theorem strMergeDistance (s : String) :
    ("." : String) ++ (" The distance was " ++ s)
      = ". The distance was " ++ s := by
  rw [← String.append_assoc]; rfl

/-- Claim C6: the human-readable NEO rendering states the designation, appends
a name clause exactly when the name is present, appends a diameter clause
exactly when the diameter passes the self-equality test (which fails precisely
at the NaN sentinel), and ends with a hazard clause whose two wordings differ;
with the diameter set to the sentinel the diameter clause is omitted. -/
theorem neo_str_clause_structure (neo : NearEarthObject) :
    (neoStr neo
      = "A NearEarthObject with designation " ++ neo.designation ++ "."
        ++ (match neo.name with
            | some n => " It\x27s name is " ++ n
            | none => "")
        ++ (if pyEq neo.diameter neo.diameter then
              " It has a diameter of " ++ pyFloatStr neo.diameter ++ "m."
            else "")
        ++ (if neo.hazardous then " It is endangering us all!" else " It is harmless."))
    ∧ (pyEq neo.diameter neo.diameter = false ↔ neo.diameter = PyFloat.nan)
    ∧ (" It is endangering us all!" : String) ≠ " It is harmless."
    ∧ neoStr { neo with diameter := PyFloat.nan }
      = "A NearEarthObject with designation " ++ neo.designation ++ "."
        ++ (match neo.name with
            | some n => " It\x27s name is " ++ n
            | none => "")
        ++ (if neo.hazardous then " It is endangering us all!" else " It is harmless.") := by
  refine ⟨?_, ?_, by decide, ?_⟩
  · unfold neoStr
    cases hn : neo.name <;> cases hd : pyEq neo.diameter neo.diameter <;>
      cases hh : neo.hazardous <;>
        simp [hn, hd, hh, String.append_assoc, strMergeName, strMergeDiameter]
  · cases hd : neo.diameter with
    | nan => simp [pyEq]
    | val q => simp [pyEq]
  · unfold neoStr
    cases hn : neo.name <;> cases hh : neo.hazardous <;>
      simp [pyEq, String.append_assoc, strMergeName]

/-- Claim C7: the human-readable approach rendering appends the velocity and
distance clauses exactly when the respective stored value is strictly positive,
so construction with an explicit `0.0` distance (or velocity) renders the same
as construction with the value omitted. -/
theorem ca_str_strict_positive_guards :
    (∀ ca : CloseApproach, caStr ca
      = "A CloseApproach of " ++ ca._designation ++ " that happened on "
        ++ datetime_to_str ca.time ++ "."
        ++ (if pyGt ca.velocity (PyFloat.val 0) then
              " The velocity was " ++ pyFloatStr ca.velocity else "")
        ++ (if pyGt ca.distance (PyFloat.val 0) then
              " The distance was " ++ pyFloatStr ca.distance else ""))
    ∧ (∀ des t vo,
        (closeApproachInit des t ⟨some (PyObj.ofFloat (PyFloat.val 0)), vo⟩).map caStr
          = (closeApproachInit des t ⟨none, vo⟩).map caStr)
    ∧ (∀ des t dio,
        (closeApproachInit des t ⟨dio, some (PyObj.ofFloat (PyFloat.val 0))⟩).map caStr
          = (closeApproachInit des t ⟨dio, none⟩).map caStr) := by
  refine ⟨?_, ?_, ?_⟩
  · intro ca
    unfold caStr
    cases hv : pyGt ca.velocity (PyFloat.val 0) <;>
      cases hd : pyGt ca.distance (PyFloat.val 0) <;>
        simp [hv, hd, String.append_assoc, strMergeVelocity, strMergeDistance]
  · intro des t vo
    unfold closeApproachInit
    cases ht : cd_to_datetime t
    · rfl
    · rfl
  · intro des t dio
    unfold closeApproachInit
    cases ht : cd_to_datetime t
    · rfl
    · cases hdio : (match dio with
        | some v => pyFloatOf v
        | none => Except.ok (PyFloat.val 0)) <;> rfl

/-- Characterization of a successful `CloseApproach` construction: the time is
the parsed instant, the designation key is stored as given, the numeric fields
are the converted (or defaulted) values, and the NEO link starts unset. -/
theorem closeApproachInit_ok (d t : String) (info : CaInfo) (ca : CloseApproach)
    (h : closeApproachInit d t info = Except.ok ca) :
    cd_to_datetime t = Except.ok ca.time
    ∧ ca._designation = d
    ∧ (match info.distance with
       | some v => pyFloatOf v
       | none => Except.ok (PyFloat.val 0)) = Except.ok ca.distance
    ∧ (match info.velocity with
       | some v => pyFloatOf v
       | none => Except.ok (PyFloat.val 0)) = Except.ok ca.velocity
    ∧ ca.neo = none := by
  unfold closeApproachInit at h
  cases ht : cd_to_datetime t <;> rw [ht] at h
  · cases h
  · cases hd : (match info.distance with
        | some v => pyFloatOf v
        | none => Except.ok (PyFloat.val 0)) <;> rw [hd] at h
    · cases h
    · cases hv : (match info.velocity with
          | some v => pyFloatOf v
          | none => Except.ok (PyFloat.val 0)) <;> rw [hv] at h
      · cases h
      · injection h with h2
        subst h2
        exact ⟨rfl, rfl, rfl, rfl, rfl⟩

/-- Characterization of a successful `NearEarthObject` construction: the
designation was a string and is stored as given, the name is taken as given,
the diameter is the converted (or defaulted) value, the hazardous flag
defaults to false, and the approaches collection starts empty. -/
theorem nearEarthObjectInit_ok (d : PyObj) (info : NeoInfo) (neo : NearEarthObject)
    (h : nearEarthObjectInit d info = Except.ok neo) :
    (∃ s, d = PyObj.ofStr s ∧ neo.designation = s)
    ∧ neo.name = info.name
    ∧ (match info.diameter with
       | some v => pyFloatOf v
       | none => Except.ok PyFloat.nan) = Except.ok neo.diameter
    ∧ neo.hazardous = info.hazardous.getD false
    ∧ neo.approaches = [] := by
  unfold nearEarthObjectInit at h
  cases d with
  | ofFloat f => cases h
  | other => cases h
  | ofStr s =>
      cases hd : (match info.diameter with
          | some v => pyFloatOf v
          | none => Except.ok PyFloat.nan) <;> rw [hd] at h
      · cases h
      · injection h with h2
        subst h2
        exact ⟨⟨s, rfl, rfl⟩, rfl, rfl, rfl, rfl⟩

/-- Claim C8: construction-time errors fail immediately — a malformed time
string makes `CloseApproach` construction fail with the parser's error (the
time is never defaulted: on success it is exactly the parsed instant), a
diameter, distance or velocity that does not convert to float makes the
respective construction fail, and the only default substitutions are the
documented sentinels (NaN for an absent diameter, `0.0` for absent
distance/velocity). -/
theorem construction_errors_fail_fast :
    (∀ d t info e, cd_to_datetime t = Except.error e →
        closeApproachInit d t info = Except.error e)
    ∧ (∀ d t info v e, info.distance = some v → pyFloatOf v = Except.error e →
        ∃ e2, closeApproachInit d t info = Except.error e2)
    ∧ (∀ d t info v e, info.velocity = some v → pyFloatOf v = Except.error e →
        ∃ e2, closeApproachInit d t info = Except.error e2)
    ∧ (∀ d info v e, info.diameter = some v → pyFloatOf v = Except.error e →
        ∃ e2, nearEarthObjectInit d info = Except.error e2)
    ∧ (∀ d t info ca, closeApproachInit d t info = Except.ok ca →
        cd_to_datetime t = Except.ok ca.time)
    ∧ (∀ d t info ca, info.distance = none →
        closeApproachInit d t info = Except.ok ca → ca.distance = PyFloat.val 0)
    ∧ (∀ d t info ca, info.velocity = none →
        closeApproachInit d t info = Except.ok ca → ca.velocity = PyFloat.val 0)
    ∧ (∀ d info neo, info.diameter = none →
        nearEarthObjectInit d info = Except.ok neo → neo.diameter = PyFloat.nan) := by
  refine ⟨?_, ?_, ?_, ?_, ?_, ?_, ?_, ?_⟩
  · intro d t info e ht
    unfold closeApproachInit
    rw [ht]
  · intro d t info v e hv he
    unfold closeApproachInit
    cases ht : cd_to_datetime t with
    | error e2 => exact ⟨e2, rfl⟩
    | ok t2 => exact ⟨e, by simp [hv, he]⟩
  · intro d t info v e hv he
    unfold closeApproachInit
    cases ht : cd_to_datetime t with
    | error e2 => exact ⟨e2, rfl⟩
    | ok t2 =>
        cases hd : (match info.distance with
            | some w => pyFloatOf w
            | none => Except.ok (PyFloat.val 0)) with
        | error e2 => exact ⟨e2, rfl⟩
        | ok dv => exact ⟨e, by simp [hv, he]⟩
  · intro d info v e hv he
    cases d with
    | ofStr s => exact ⟨e, by simp [nearEarthObjectInit, hv, he]⟩
    | ofFloat f => exact ⟨"AssertionError", rfl⟩
    | other => exact ⟨"AssertionError", rfl⟩
  · intro d t info ca h
    exact (closeApproachInit_ok d t info ca h).1
  · intro d t info ca hnone h
    have h3 := (closeApproachInit_ok d t info ca h).2.2.1
    rw [hnone] at h3
    injection h3 with h4
    exact h4.symm
  · intro d t info ca hnone h
    have h3 := (closeApproachInit_ok d t info ca h).2.2.2.1
    rw [hnone] at h3
    injection h3 with h4
    exact h4.symm
  · intro d info neo hnone h
    have h3 := (nearEarthObjectInit_ok d info neo h).2.2.1
    rw [hnone] at h3
    injection h3 with h4
    exact h4.symm

/-- Witness for C8: the malformed time string `"garbage"` fails construction,
a non-convertible distance, velocity or diameter fails the respective
construction, and the all-defaults construction yields the parsed time, a
`0.0` distance and a `0.0` velocity. -/
theorem construction_errors_fail_fast_witness :
    closeApproachInit "433" "garbage" ⟨none, none⟩ = Except.error "ValueError"
    ∧ (∃ e, closeApproachInit "433" "1900-01-01 00:27"
        ⟨some PyObj.other, none⟩ = Except.error e)
    ∧ (∃ e, closeApproachInit "433" "1900-01-01 00:27"
        ⟨none, some (PyObj.ofStr "abc")⟩ = Except.error e)
    ∧ (∃ e, nearEarthObjectInit (PyObj.ofStr "433")
        ⟨none, some PyObj.other, none⟩ = Except.error e)
    ∧ (∃ ca, closeApproachInit "433" "1900-01-01 00:27" ⟨none, none⟩ = Except.ok ca
        ∧ cd_to_datetime "1900-01-01 00:27" = Except.ok ca.time
        ∧ ca.distance = PyFloat.val 0 ∧ ca.velocity = PyFloat.val 0) := by
  obtain ⟨h1, h2, h3, h4, h5, h6, h7, h8⟩ := construction_errors_fail_fast
  refine ⟨h1 "433" "garbage" ⟨none, none⟩ "ValueError" (by decide),
          h2 "433" "1900-01-01 00:27" ⟨some PyObj.other, none⟩ PyObj.other "TypeError" rfl rfl,
          h3 "433" "1900-01-01 00:27" ⟨none, some (PyObj.ofStr "abc")⟩
            (PyObj.ofStr "abc") "ValueError" rfl (by decide),
          h4 (PyObj.ofStr "433") ⟨none, some PyObj.other, none⟩ PyObj.other "TypeError" rfl rfl,
          ?_⟩
  have hok : closeApproachInit "433" "1900-01-01 00:27" ⟨none, none⟩
      = Except.ok ⟨"433", ⟨1900, 1, 1, 0, 27, 0⟩, PyFloat.val 0, PyFloat.val 0, none⟩ := by
    decide
  exact ⟨_, hok,
    h5 "433" "1900-01-01 00:27" ⟨none, none⟩ _ hok,
    h6 "433" "1900-01-01 00:27" ⟨none, none⟩ _ rfl hok,
    h7 "433" "1900-01-01 00:27" ⟨none, none⟩ _ rfl hok⟩

/-- Claim C9: neither writer mutates the object graph it consumes — each
returns the input sequence of approaches (with every field of every approach
and linked NEO intact) unchanged alongside the text written. -/
theorem writers_preserve_object_graph (results : List CloseApproach)
    (h : ∀ a ∈ results, a.neo.isSome) :
    (∃ rows, write_to_csv results = Except.ok (results, rows))
    ∧ (∃ s, write_to_json results = Except.ok (results, s)) := by
  have hallc : ∀ a ∈ results, ∃ b, csvRow a = Except.ok b := by
    intro a ha
    have hs := h a ha
    match hne : a.neo with
    | some n => exact ⟨_, csvRow_some a n hne⟩
    | none => simp [hne] at hs
  have hallj : ∀ a ∈ results, ∃ b, approachObjDict a = Except.ok b := by
    intro a ha
    have hs := h a ha
    match hne : a.neo with
    | some n => exact ⟨_, approachObjDict_some a n hne⟩
    | none => simp [hne] at hs
  obtain ⟨rows, hrows, _⟩ := mapExcept_ok csvRow results hallc
  obtain ⟨objs, hobjs, _⟩ := mapExcept_ok approachObjDict results hallj
  constructor
  · exact ⟨fieldnames.map PyVal.str :: rows, by simp [write_to_csv, hrows]⟩
  · by_cases hlen : results.length = 0
    · exact ⟨jsonRender (JVal.jarr []), by simp [write_to_json, hlen]⟩
    · exact ⟨jsonRender (JVal.jarr objs), by simp [write_to_json, hlen, hobjs]⟩

/-- Witness for C9 at a concrete one-element linked input. -/
theorem writers_preserve_object_graph_witness :
    (∃ rows, write_to_csv [caSample] = Except.ok ([caSample], rows))
    ∧ (∃ s, write_to_json [caSample] = Except.ok ([caSample], s)) :=
  writers_preserve_object_graph [caSample] (by decide)

/-- Claim C10: constructing a `NearEarthObject` with any non-string
designation fails the constructor's assertion, while for every string
designation construction succeeds provided any supplied diameter converts to
float. -/
theorem neo_init_designation_assertion :
    (∀ d info, (∀ s, d ≠ PyObj.ofStr s) →
        nearEarthObjectInit d info = Except.error "AssertionError")
    ∧ (∀ s info, (info.diameter = none
          ∨ ∃ v f, info.diameter = some v ∧ pyFloatOf v = Except.ok f) →
        ∃ neo, nearEarthObjectInit (PyObj.ofStr s) info = Except.ok neo
          ∧ neo.designation = s) := by
  constructor
  · intro d info hns
    cases d with
    | ofStr s => exact absurd rfl (hns s)
    | ofFloat f => rfl
    | other => rfl
  · intro s info hdia
    cases hdia with
    | inl hnone =>
        refine ⟨⟨s, info.name, PyFloat.nan, info.hazardous.getD false, []⟩, ?_, rfl⟩
        simp [nearEarthObjectInit, hnone]
    | inr hex =>
        obtain ⟨v, f, hv, hf⟩ := hex
        refine ⟨⟨s, info.name, f, info.hazardous.getD false, []⟩, ?_, rfl⟩
        simp [nearEarthObjectInit, hv, hf]

/-- Witness for C10: a non-string designation fails with the assertion error,
and the string designation `"433"` with a convertible diameter succeeds. -/
theorem neo_init_designation_assertion_witness :
    nearEarthObjectInit PyObj.other ⟨none, none, none⟩ = Except.error "AssertionError"
    ∧ (∃ neo, nearEarthObjectInit (PyObj.ofStr "433")
          ⟨none, some (PyObj.ofFloat (PyFloat.val (mkRat 1684 100))), none⟩ = Except.ok neo
        ∧ neo.designation = "433") :=
  ⟨neo_init_designation_assertion.1 PyObj.other ⟨none, none, none⟩
      (fun _ h => PyObj.noConfusion h),
   neo_init_designation_assertion.2 "433" _ (Or.inr ⟨_, _, rfl, rfl⟩)⟩
